import Mathlib

/-
Verification of the Flo language execution core (flo_lang/interpreter) against
its natural-language specification.

The development shallowly embeds the tree-walking evaluator of
`src/flo_lang/interpreter/evaluator.py` and the scope chain of
`src/flo_lang/interpreter/environment.py`:

  * AST node dataclasses of `flo_lang/ast/nodes.py` become inductive types.
  * Run-time values (Python ints, strs, bools, None, lists, dicts, tuples,
    `FloFunction`, `FloStrand`, and the exception objects `ReturnValue` /
    `RuntimeError`) become the inductive type `Value`.  Python floats are
    modelled as rationals; IEEE-754 rounding is outside the model and no
    verified statement depends on float arithmetic.
  * The mutable, shared-by-reference `Environment` objects become frames in a
    store (`St.frames`), addressed by index, so closures capture their scope
    by reference exactly as in the source.
  * Python exception propagation (`raise` / `try` / `except` / `finally`)
    becomes the explicit outcome type `Eres`: an evaluation yields a value, a
    raised exception object, or `timeout` when the step budget (`fuel`) runs
    out.  `timeout` is an artefact of totalising the interpreter and never
    corresponds to a behaviour of the source.
  * `asyncio.create_task` strands are serialised: a strand body runs to
    completion at creation and its outcome is recorded in `St.strands`;
    `await` on a handle reads the recorded outcome.  This is the deterministic
    serialisation of the cooperative model; no verified statement observes
    task interleaving.
  * The host builtin table (`print`, `range`, `len`, `str`, `int`, `float`)
    installed by `setup_builtins` consists of opaque host functions and is not
    part of the model; the initial global frame is empty.  No verified
    statement involves a builtin.
  * Error-message strings follow the source f-strings, except that the single
    quotation marks Python places around interpolated names are elided, and
    interpolated value reprs use the best-effort `repr_v` below.

Definition names follow the source (`eval_binary_expr`, `match_pattern`,
`define`, ...).
-/

namespace Flo

/-! ## AST (flo_lang/ast/nodes.py) -/

/-- Binary operators (`BinaryOp` enum). -/
inductive BinaryOp where
  | add | sub | mul | div | mod
  | eq | neq | lt | gt | lte | gte
  | and | or
  | pipelineForward | pipelineBackward
deriving DecidableEq

/-- Unary operators (`UnaryOp` enum). -/
inductive UnaryOp where
  | not | neg | pos
deriving DecidableEq

/-- Scalar literal payloads, as stored in `IntLiteral` / `FloatLiteral` /
`StringLiteral` / `BoolLiteral` / `NilLiteral` nodes and in
`LiteralPattern.value` (a Python `int | float | str | bool | None`). -/
inductive Lit where
  | int (n : Int)
  | float (q : ℚ)
  | str (s : String)
  | bool (b : Bool)
  | nil
deriving DecidableEq

/-- Patterns of `match` arms (`Pattern` subclasses in nodes.py).  The
`OptionPattern` / `ResultPattern` variants are stored as strings in the
source (`"Some"`/`"None"`, `"Ok"`/`"Err"`) and kept as strings here; both
carry an optional inner pattern that the evaluator never consults. -/
inductive Pattern where
  | literal (value : Lit)
  | var (name : String)
  | wildcard
  | option (variant : String) (inner : Option Pattern)
  | result (variant : String) (inner : Option Pattern)
  | list (patterns : List Pattern)

mutual

/-- Expression nodes (`Expr` subclasses in nodes.py). -/
inductive Expr where
  | intLit (value : Int)
  | floatLit (value : ℚ)
  | strLit (value : String)
  | boolLit (value : Bool)
  | nilLit
  | varRef (name : String)
  | binary (left : Expr) (op : BinaryOp) (right : Expr)
  | unary (op : UnaryOp) (expr : Expr)
  | assignment (name : String) (value : Expr)
  | call (func : Expr) (args : List Expr)
  | listExpr (elements : List Expr)
  | mapExpr (entries : List (String × Expr))
  | index (expr : Expr) (idx : Expr)
  | attr (expr : Expr) (name : String)
  | ifExpr (condition : Expr) (thenBlock : List Stmt)
      (elifClauses : List (Expr × List Stmt)) (elseBlock : Option (List Stmt))
  | matchExpr (expr : Expr) (arms : List (Pattern × Expr))
  | forExpr (var : String) (iterable : Expr) (body : List Stmt)
  | whileExpr (condition : Expr) (body : List Stmt)
  | attemptExpr (body : List Stmt) (rescue : Option (String × List Stmt))
      (finallyClause : Option (List Stmt))
  | fnExpr (params : List String) (body : List Stmt)
  | strandExpr (body : List Stmt)
  | awaitExpr (expr : Expr)
  | optionExpr (variant : String) (value : Option Expr)
  | resultExpr (variant : String) (value : Expr)

/-- Statement nodes (`Statement` subclasses in nodes.py).  Parameter lists
keep only the names: type annotations are never consulted by the evaluator. -/
inductive Stmt where
  | letDecl (name : String) (value : Expr)
  | varDecl (name : String) (value : Expr)
  | constDecl (name : String) (value : Expr)
  | fnDecl (name : String) (params : List String) (body : List Stmt)
  | returnStmt (value : Option Expr)
  | exprStmt (expr : Expr)
  | importStmt
  | capabilityRequest

end

/-! ## Run-time values -/

/-- Run-time values.  `closure` is `FloFunction` (name, params, body, and the
frame index of the captured environment); `strand` is a `FloStrand` handle
(index into the strand table); `exnReturn` is the control-flow exception
`ReturnValue(value)`; `exnError` is a `RuntimeError`/`FloRuntimeError`
carrying its message.  `tuple` covers the Python tuples `("Ok", v)` /
`("Err", v)` produced by `eval_result_expr`. -/
inductive Value where
  | int (n : Int)
  | float (q : ℚ)
  | str (s : String)
  | bool (b : Bool)
  | nil
  | list (elements : List Value)
  | map (entries : List (String × Value))
  | tuple (elements : List Value)
  | closure (name : String) (params : List String) (body : List Stmt) (env : Nat)
  | strand (id : Nat)
  | exnReturn (value : Value)
  | exnError (msg : String)

/-! ## Association lists with Python-dict update semantics -/

/-- Lookup in an association list (Python `d[k]` / `k in d`). -/
def lookup_assoc (k : String) : List (String × α) → Option α
  | [] => none
  | (k₁, v₁) :: rest => if k₁ = k then some v₁ else lookup_assoc k rest

/-- Python dict assignment `d[k] = v`: replace in place if the key exists
(keeping its position, as insertion order is preserved), append otherwise. -/
def upd_assoc (k : String) (v : α) : List (String × α) → List (String × α)
  | [] => [(k, v)]
  | (k₁, v₁) :: rest =>
    if k₁ = k then (k, v) :: rest else (k₁, v₁) :: upd_assoc k v rest

theorem lookup_upd_assoc (k : String) (v : α) (l : List (String × α)) :
    lookup_assoc k (upd_assoc k v l) = some v := by
  induction l with
  | nil => simp [upd_assoc, lookup_assoc]
  | cons hd tl ih =>
    obtain ⟨k₁, v₁⟩ := hd
    by_cases h : k₁ = k <;> simp [upd_assoc, lookup_assoc, h, ih]

theorem lookup_upd_assoc_ne (k k₀ : String) (v : α) (l : List (String × α))
    (h : k₀ ≠ k) : lookup_assoc k₀ (upd_assoc k v l) = lookup_assoc k₀ l := by
  induction l with
  | nil => simp [upd_assoc, lookup_assoc, Ne.symm h]
  | cons hd tl ih =>
    obtain ⟨k₁, v₁⟩ := hd
    by_cases h₁ : k₁ = k
    · subst h₁
      simp [upd_assoc, lookup_assoc, Ne.symm h]
    · simp [upd_assoc, lookup_assoc, h₁, ih]

/-! ## Environment (flo_lang/interpreter/environment.py)

A Python `Environment` object is a frame: the two dicts `bindings` and
`mutable` plus the `parent` reference.  Objects are shared by reference in
the source, so the model keeps all frames in a store (a list indexed by
creation order) and passes frame indices where the source passes object
references.  A frame allocated later always points to an earlier frame, so
chain walks are bounded by the frame index; the fuel argument of `get` /
`set` below makes them total on arbitrary stores. -/

structure Frame where
  parent : Option Nat
  bindings : List (String × Value)
  mutable : List (String × Bool)

/-- Message of the `RuntimeError` raised by `Environment.define`
(`f"Variable '{name}' already defined in this scope"`; quotes elided). -/
def dup_def_msg (name : String) : String :=
  s!"Variable {name} already defined in this scope"

/-- Message of the `RuntimeError` raised by `Environment.get` and
`Environment.set` when no scope owns the name. -/
def undefined_msg (name : String) : String :=
  s!"Undefined variable {name}"

/-- Message of the `RuntimeError` raised by `Environment.set` on an
immutable binding. -/
def immutable_msg (name : String) : String :=
  s!"Cannot reassign immutable variable {name}"

/-- `Environment.define(name, value, mutable)` on the frame `env` of the
store: raises `RuntimeError` if `name` is already in this frame's own
`bindings` (the parent chain is never consulted), otherwise records the
binding and its mutability.  Returns the updated store. -/
def define (frames : List Frame) (env : Nat) (name : String) (value : Value)
    (mutable : Bool) : Except Value (List Frame) :=
  match frames[env]? with
  | none => .error (.exnError (undefined_msg name))
  | some f =>
    if (lookup_assoc name f.bindings).isSome then
      .error (.exnError (dup_def_msg name))
    else
      .ok (frames.set env
        { f with bindings := upd_assoc name value f.bindings,
                 mutable := upd_assoc name mutable f.mutable })

/-- `Environment.get(name)`: return the binding found by walking from frame
`env` toward the root; `RuntimeError` if absent everywhere.  `fuel` bounds
the walk (any value above the chain length is exact). -/
def get (fuel : Nat) (frames : List Frame) (env : Nat) (name : String) :
    Except Value Value :=
  match fuel with
  | 0 => .error (.exnError (undefined_msg name))
  | fuel+1 =>
    match frames[env]? with
    | none => .error (.exnError (undefined_msg name))
    | some f =>
      match lookup_assoc name f.bindings with
      | some v => .ok v
      | none =>
        match f.parent with
        | some p => get fuel frames p name
        | none => .error (.exnError (undefined_msg name))

/-- `Environment.set(name, value)`: walk from frame `env` toward the root to
the nearest frame whose own `bindings` contain `name`; on an immutable
binding raise `ImmutableReassignment`, otherwise update it.  Raise
`UndefinedVariable` when no frame in the chain owns `name`. -/
def set (fuel : Nat) (frames : List Frame) (env : Nat) (name : String)
    (value : Value) : Except Value (List Frame) :=
  match fuel with
  | 0 => .error (.exnError (undefined_msg name))
  | fuel+1 =>
    match frames[env]? with
    | none => .error (.exnError (undefined_msg name))
    | some f =>
      if (lookup_assoc name f.bindings).isSome then
        if lookup_assoc name f.mutable = some true then
          .ok (frames.set env { f with bindings := upd_assoc name value f.bindings })
        else
          .error (.exnError (immutable_msg name))
      else
        match f.parent with
        | some p => set fuel frames p name value
        | none => .error (.exnError (undefined_msg name))

/-- Modelled from the spec (§4.2): the nearest scope, walking from `env`
toward the root, whose own bindings contain `name`.  Used only to state the
refinement theorem for `set`; the source has no such function. -/
def owner (fuel : Nat) (frames : List Frame) (env : Nat) (name : String) :
    Option Nat :=
  match fuel with
  | 0 => none
  | fuel+1 =>
    match frames[env]? with
    | none => none
    | some f =>
      if (lookup_assoc name f.bindings).isSome then some env
      else
        match f.parent with
        | some p => owner fuel frames p name
        | none => none

/-! ## Interpreter state and outcomes -/

/-- Interpreter state: the store of environment frames and the table of
strand outcomes (the recorded result or raised exception of each strand
body, in creation order). -/
structure St where
  frames : List Frame
  strands : List (Except Value Value)

/-- Outcome of one evaluation step: a value together with the updated state,
a raised Python exception object (`ReturnValue` or a runtime error) together
with the state at raise time, or exhaustion of the step budget (an artefact
of totalisation, not a source behaviour). -/
inductive Eres (α : Type) where
  | ok (a : α) (s : St)
  | exn (e : Value) (s : St)
  | timeout

/-- Initial state: one empty global frame.  (The host builtin table that
`setup_builtins` installs into the global environment consists of opaque
host functions and is outside the model.) -/
def st0 : St := ⟨[⟨none, [], []⟩], []⟩

/-! ## Python value semantics used by the evaluator

The source applies host (Python) operations directly to run-time values:
`if condition:` truth-testing, `==`, `<`, `+`, `not`, indexing, iteration.
The helpers below embed those host operations on the `Value` type. -/

/-- Python truth test (`bool(x)`), as applied by `if condition:`,
`while ... :`, `not`, `and`, `or` in the evaluator: `False`, `None`, zero
numbers and empty collections are falsy; everything else (including
`FloFunction`, `FloStrand` and exception objects) is truthy. -/
def truthy : Value → Bool
  | .bool b => b
  | .nil => false
  | .int n => n != 0
  | .float q => q != 0
  | .str s => s != ""
  | .list xs => !xs.isEmpty
  | .map xs => !xs.isEmpty
  | .tuple xs => !xs.isEmpty
  | _ => true

/-- Numeric view (Python `bool` is an `int` subtype: `True` counts as 1). -/
def as_int : Value → Option Int
  | .int n => some n
  | .bool b => some (if b then 1 else 0)
  | _ => none

/-- Numeric view including floats, as a rational. -/
def as_num : Value → Option ℚ
  | .int n => some (n : ℚ)
  | .bool b => some (if b then 1 else 0)
  | .float q => some q
  | _ => none

/-- Python type name, for error messages. -/
def type_name : Value → String
  | .int _ => "int"
  | .float _ => "float"
  | .str _ => "str"
  | .bool _ => "bool"
  | .nil => "NoneType"
  | .list _ => "list"
  | .map _ => "dict"
  | .tuple _ => "tuple"
  | .closure _ _ _ _ => "FloFunction"
  | .strand _ => "FloStrand"
  | .exnReturn _ => "ReturnValue"
  | .exnError _ => "RuntimeError"

mutual

/-- Python `==` on run-time values: numbers compare across `int` / `bool` /
`float`; strings, `None`, lists, tuples and dicts compare structurally
(dicts order-insensitively); values of unrelated types are unequal.
`FloFunction` / `FloStrand` / exception objects compare by object identity
in the host; distinct model values of these kinds are treated as distinct
objects, hence unequal. -/
def py_eq (a b : Value) : Bool :=
  match a, b with
  | .str s, .str t => s == t
  | .nil, .nil => true
  | .list xs, .list ys => py_eq_list xs ys
  | .tuple xs, .tuple ys => py_eq_list xs ys
  | .map xs, .map ys => xs.length == ys.length && py_eq_entries xs ys
  | a, b =>
    match as_num a, as_num b with
    | some x, some y => x == y
    | _, _ => false

def py_eq_list : List Value → List Value → Bool
  | [], [] => true
  | x :: xs, y :: ys => py_eq x y && py_eq_list xs ys
  | _, _ => false

def py_eq_entries : List (String × Value) → List (String × Value) → Bool
  | [], _ => true
  | (k, v) :: rest, ys =>
    (match lookup_assoc k ys with
     | some w => py_eq v w
     | none => false) && py_eq_entries rest ys

end

mutual

/-- Python `<`: numbers compare across kinds, strings lexicographically by
code point, lists and tuples lexicographically elementwise; any other
combination raises `TypeError`. -/
def py_lt (a b : Value) : Except Value Bool :=
  match a, b with
  | .str s, .str t => .ok (decide (s < t))
  | .list xs, .list ys => py_lt_list xs ys
  | .tuple xs, .tuple ys => py_lt_list xs ys
  | a, b =>
    match as_num a, as_num b with
    | some x, some y => .ok (decide (x < y))
    | _, _ =>
      .error (.exnError
        s!"< not supported between instances of {type_name a} and {type_name b}")

def py_lt_list : List Value → List Value → Except Value Bool
  | [], [] => .ok false
  | [], _ :: _ => .ok true
  | _ :: _, [] => .ok false
  | x :: xs, y :: ys =>
    if py_eq x y then py_lt_list xs ys else py_lt x y

end

/-- Python `<=`, derived from `<` and `==` (agrees with the host on the
orderable kinds: numbers, strings, lists, tuples). -/
def py_le (a b : Value) : Except Value Bool :=
  match py_lt a b with
  | .ok true => .ok true
  | .ok false => .ok (py_eq a b)
  | .error e => .error e

mutual

/-- Best-effort Python `repr`, used when the evaluator interpolates a value
into an f-string error message (string quotes elided, float formatting is
the rational one). -/
def repr_v : Value → String
  | .int n => toString n
  | .float q => toString q
  | .str s => s
  | .bool b => if b then "True" else "False"
  | .nil => "None"
  | .list xs => "[" ++ repr_vs xs ++ "]"
  | .tuple xs => "(" ++ repr_vs xs ++ ")"
  | .map xs => "\x7b" ++ repr_kvs xs ++ "\x7d"
  | .closure name _ _ _ => "<function " ++ name ++ ">"
  | .strand _ => "<strand>"
  | .exnReturn v => "ReturnValue(" ++ repr_v v ++ ")"
  | .exnError m => m

def repr_vs : List Value → String
  | [] => ""
  | [x] => repr_v x
  | x :: xs => repr_v x ++ ", " ++ repr_vs xs

def repr_kvs : List (String × Value) → String
  | [] => ""
  | [(k, v)] => k ++ ": " ++ repr_v v
  | (k, v) :: xs => k ++ ": " ++ repr_v v ++ ", " ++ repr_kvs xs

end

/-- Python sequence repetition `xs * n` (non-positive `n` gives the empty
sequence). -/
def seq_repeat (xs : List α) (n : Int) : List α :=
  (List.replicate n.toNat xs).flatten

/-- Binary `TypeError` message. -/
def bin_type_error (sym : String) (a b : Value) : Value :=
  .exnError s!"unsupported operand type(s) for {sym}: {type_name a} and {type_name b}"

/-- `left + right` (Python): numeric addition (int-kind preserved when both
operands are int/bool), or concatenation of strings / lists / tuples. -/
def py_add (a b : Value) : Except Value Value :=
  match as_int a, as_int b with
  | some x, some y => .ok (.int (x + y))
  | _, _ =>
    match as_num a, as_num b with
    | some x, some y => .ok (.float (x + y))
    | _, _ =>
      match a, b with
      | .str s, .str t => .ok (.str (s ++ t))
      | .list xs, .list ys => .ok (.list (xs ++ ys))
      | .tuple xs, .tuple ys => .ok (.tuple (xs ++ ys))
      | a, b => .error (bin_type_error "+" a b)

/-- `left - right` (Python): numeric only. -/
def py_sub (a b : Value) : Except Value Value :=
  match as_int a, as_int b with
  | some x, some y => .ok (.int (x - y))
  | _, _ =>
    match as_num a, as_num b with
    | some x, some y => .ok (.float (x - y))
    | _, _ => .error (bin_type_error "-" a b)

/-- `left * right` (Python): numeric product, or sequence repetition when one
operand is a string / list / tuple and the other an integer. -/
def py_mul (a b : Value) : Except Value Value :=
  match as_int a, as_int b with
  | some x, some y => .ok (.int (x * y))
  | _, _ =>
    match as_num a, as_num b with
    | some x, some y => .ok (.float (x * y))
    | _, _ =>
      match a, b with
      | .str s, b =>
        match as_int b with
        | some n => .ok (.str (String.join (List.replicate n.toNat s)))
        | none => .error (bin_type_error "*" a b)
      | a, .str t =>
        match as_int a with
        | some n => .ok (.str (String.join (List.replicate n.toNat t)))
        | none => .error (bin_type_error "*" a b)
      | .list xs, b =>
        match as_int b with
        | some n => .ok (.list (seq_repeat xs n))
        | none => .error (bin_type_error "*" a b)
      | a, .list ys =>
        match as_int a with
        | some n => .ok (.list (seq_repeat ys n))
        | none => .error (bin_type_error "*" a b)
      | .tuple xs, b =>
        match as_int b with
        | some n => .ok (.tuple (seq_repeat xs n))
        | none => .error (bin_type_error "*" a b)
      | a, .tuple ys =>
        match as_int a with
        | some n => .ok (.tuple (seq_repeat ys n))
        | none => .error (bin_type_error "*" a b)
      | a, b => .error (bin_type_error "*" a b)

/-- `left / right` (Python true division): always float-valued on numbers;
`ZeroDivisionError` on a zero divisor. -/
def py_div (a b : Value) : Except Value Value :=
  match as_num a, as_num b with
  | some x, some y =>
    if y = 0 then .error (.exnError "division by zero")
    else .ok (.float (x / y))
  | _, _ => .error (bin_type_error "/" a b)

/-- `left % right` (Python): floor-style remainder (the result takes the sign
of the divisor); `ZeroDivisionError` on a zero divisor. -/
def py_mod (a b : Value) : Except Value Value :=
  match as_int a, as_int b with
  | some x, some y =>
    if y = 0 then .error (.exnError "integer division or modulo by zero")
    else .ok (.int (Int.fmod x y))
  | _, _ =>
    match as_num a, as_num b with
    | some x, some y =>
      if y = 0 then .error (.exnError "float modulo")
      else .ok (.float (x - y * ((x / y).floor : ℚ)))
    | _, _ => .error (bin_type_error "%" a b)

/-- `obj[index]` (Python): list / tuple / string indexing with negative
indices and bounds checks, and dict lookup with `KeyError` on a missing
key. -/
def py_index (obj idx : Value) : Except Value Value :=
  match obj with
  | .list xs =>
    match as_int idx with
    | some i =>
      let j := if i < 0 then i + xs.length else i
      match xs[j.toNat]? with
      | some v => if j < 0 then .error (.exnError "list index out of range") else .ok v
      | none => .error (.exnError "list index out of range")
    | none => .error (.exnError s!"list indices must be integers, not {type_name idx}")
  | .tuple xs =>
    match as_int idx with
    | some i =>
      let j := if i < 0 then i + xs.length else i
      match xs[j.toNat]? with
      | some v => if j < 0 then .error (.exnError "tuple index out of range") else .ok v
      | none => .error (.exnError "tuple index out of range")
    | none => .error (.exnError s!"tuple indices must be integers, not {type_name idx}")
  | .str s =>
    match as_int idx with
    | some i =>
      let j := if i < 0 then i + s.length else i
      match s.data[j.toNat]? with
      | some c => if j < 0 then .error (.exnError "string index out of range")
                  else .ok (.str (String.mk [c]))
      | none => .error (.exnError "string index out of range")
    | none => .error (.exnError s!"string indices must be integers, not {type_name idx}")
  | .map entries =>
    match idx with
    | .str k =>
      match lookup_assoc k entries with
      | some v => .ok v
      | none => .error (.exnError s!"KeyError: {k}")
    | _ => .error (.exnError s!"KeyError: {repr_v idx}")
  | _ => .error (.exnError s!"{type_name obj} object is not subscriptable")

/-- `eval_attr`: on a dict, `obj.get(name)` — the value, or `None` when the
key is missing; on any other value `getattr` raises `AttributeError` (host
object attributes such as exception fields are outside the model). -/
def py_attr (obj : Value) (name : String) : Except Value Value :=
  match obj with
  | .map entries =>
    match lookup_assoc name entries with
    | some v => .ok v
    | none => .ok .nil
  | _ => .error (.exnError s!"{type_name obj} object has no attribute {name}")

/-- Python iteration (`for item in iterable`): lists and tuples yield their
elements, strings their characters, dicts their keys; anything else raises
`TypeError`. -/
def py_iter : Value → Except Value (List Value)
  | .list xs => .ok xs
  | .tuple xs => .ok xs
  | .str s => .ok (s.data.map (fun c => .str (String.mk [c])))
  | .map entries => .ok (entries.map (fun kv => .str kv.1))
  | v => .error (.exnError s!"{type_name v} object is not iterable")

/-! ## Evaluator (flo_lang/interpreter/evaluator.py)

The `Evaluator` class becomes the mutually recursive functions below.  Every
function takes a `fuel` budget as its first argument and every recursive
call strictly decreases it; with enough fuel the result is exactly the
source behaviour, and `timeout` otherwise.  `env` arguments are frame
indices into `St.frames` (the source passes `Environment` references). -/

/-- Value of a scalar literal node / `LiteralPattern` payload. -/
def lit_value : Lit → Value
  | .int n => .int n
  | .float q => .float q
  | .str s => .str s
  | .bool b => .bool b
  | .nil => .nil

/-- Python `value is None`. -/
def is_nil : Value → Bool
  | .nil => true
  | _ => false

/-- Python `callable(x)` on run-time values: only `FloFunction` (the host
builtins being outside the model). -/
def is_callable : Value → Bool
  | .closure _ _ _ _ => true
  | _ => false

/-- Arity-mismatch message of `call_function`. -/
def arity_msg (name : String) (expected got : Nat) : String :=
  s!"Function {name} expects {expected} arguments, got {got}"

/-- Unary `-` (Python): int-kind preserved for ints/bools, floats negated. -/
def py_neg (v : Value) : Except Value Value :=
  match as_int v with
  | some n => .ok (.int (-n))
  | none =>
    match v with
    | .float q => .ok (.float (-q))
    | _ => .error (.exnError s!"bad operand type for unary -: {type_name v}")

/-- Unary `+` (Python): identity on numbers (`+True` is `1`). -/
def py_pos (v : Value) : Except Value Value :=
  match as_int v with
  | some n => .ok (.int n)
  | none =>
    match v with
    | .float q => .ok (.float q)
    | _ => .error (.exnError s!"bad operand type for unary +: {type_name v}")

/-- Non-short-circuit operator application of `eval_binary_expr` for the
arithmetic and comparison operators (both operands already evaluated).
`AND`/`OR` and the pipeline operators are handled in `eval_binary_expr`
itself because they need truthiness of the left operand or a function
call. -/
def apply_binop : BinaryOp → Value → Value → Except Value Value
  | .add, a, b => py_add a b
  | .sub, a, b => py_sub a b
  | .mul, a, b => py_mul a b
  | .div, a, b => py_div a b
  | .mod, a, b => py_mod a b
  | .eq, a, b => .ok (.bool (py_eq a b))
  | .neq, a, b => .ok (.bool (!py_eq a b))
  | .lt, a, b => (py_lt a b).map .bool
  | .gt, a, b => (py_lt b a).map .bool
  | .lte, a, b => (py_le a b).map .bool
  | .gte, a, b => (py_le b a).map .bool
  | _, _, _ => .error (.exnError "Unknown binary operator")

/-- `Environment.define` of each parameter name to its argument,
`mutable=False`, in order (the `zip` loop of `call_function`); a duplicate
parameter name raises like any duplicate definition. -/
def bind_params : List Frame → Nat → List String → List Value →
    Except Value (List Frame)
  | frames, _, [], _ => .ok frames
  | frames, _, _ :: _, [] => .ok frames
  | frames, env, p :: ps, a :: rest =>
    match define frames env p a false with
    | .ok fr => bind_params fr env ps rest
    | .error e => .error e

/-- `eval_fn_expr`: an anonymous function closing over the current frame. -/
def eval_fn_expr (params : List String) (body : List Stmt) (env : Nat)
    (s : St) : Eres Value :=
  .ok (.closure "<lambda>" params body env) s

/-- `eval_fn_decl`: bind the function under its name, not reassignable. -/
def eval_fn_decl (name : String) (params : List String) (body : List Stmt)
    (env : Nat) (s : St) : Eres Value :=
  match define s.frames env name (.closure name params body env) false with
  | .ok fr => .ok .nil { s with frames := fr }
  | .error e => .exn e s

/-- `match_pattern`: the structural matcher, one arm per `Pattern` subclass
in source order.  A literal pattern is Python `pattern.value == value`; a
variable pattern defines the name in the **current** scope (which raises on
a duplicate) and matches; a wildcard matches; an `OptionPattern` tests
`value is None` for `"None"` and `value is not None` for `"Some"` (any
other variant falls off the `if`/`elif` and the implicit `None` return is
truth-tested as false by the caller); a `ResultPattern` returns `True`
unconditionally (the source comment reads "Simple implementation - can be
enhanced"); a `ListPattern` has no branch and hits the final
`else: return False`. -/
def match_pattern (pattern : Pattern) (value : Value) (env : Nat) (s : St) :
    Eres Bool :=
  match pattern with
  | .literal l => .ok (py_eq (lit_value l) value) s
  | .var name =>
    match define s.frames env name value false with
    | .ok fr => .ok true { s with frames := fr }
    | .error e => .exn e s
  | .wildcard => .ok true s
  | .option variant _ =>
    if variant = "None" then .ok (is_nil value) s
    else if variant = "Some" then .ok (!is_nil value) s
    else .ok false s
  | .result _ _ => .ok true s
  | .list _ => .ok false s

mutual

/-- `Evaluator.eval`, restricted to expression nodes (statement nodes are
dispatched by `eval_stmt` below; the source has a single dynamically typed
dispatch method covering both). -/
def eval : Nat → Expr → Nat → St → Eres Value
  | 0, _, _, _ => .timeout
  | fuel+1, node, env, s =>
    match node with
    | .intLit n => .ok (.int n) s
    | .floatLit q => .ok (.float q) s
    | .strLit t => .ok (.str t) s
    | .boolLit b => .ok (.bool b) s
    | .nilLit => .ok .nil s
    | .varRef name =>
      match get s.frames.length s.frames env name with
      | .ok v => .ok v s
      | .error e => .exn e s
    | .binary l op r => eval_binary_expr fuel l op r env s
    | .unary op e => eval_unary_expr fuel op e env s
    | .assignment name v => eval_assignment fuel name v env s
    | .call f args => eval_call fuel f args env s
    | .listExpr elems => eval_list_expr fuel elems env s
    | .mapExpr entries => eval_map_expr fuel entries [] env s
    | .index e i => eval_index fuel e i env s
    | .attr e n => eval_attr fuel e n env s
    | .ifExpr c thn elifs els => eval_if_expr fuel c thn elifs els env s
    | .matchExpr e arms => eval_match_expr fuel e arms env s
    | .forExpr v it body => eval_for_expr fuel v it body env s
    | .whileExpr c body => eval_while_expr fuel c body env s
    | .attemptExpr body rsc fin => eval_attempt_expr fuel body rsc fin env s
    | .fnExpr params body => eval_fn_expr params body env s
    | .strandExpr body => eval_strand_expr fuel body env s
    | .awaitExpr e => eval_await_expr fuel e env s
    | .optionExpr variant v => eval_option_expr fuel variant v env s
    | .resultExpr variant v => eval_result_expr fuel variant v env s
termination_by structural fuel _ _ _ => fuel

/-- `Evaluator.eval`, restricted to statement nodes.  `Import` and
`CapabilityRequest` evaluate to `None` (no-ops). -/
def eval_stmt : Nat → Stmt → Nat → St → Eres Value
  | 0, _, _, _ => .timeout
  | fuel+1, st, env, s =>
    match st with
    | .letDecl name value => eval_let_decl fuel name value env s
    | .varDecl name value => eval_var_decl fuel name value env s
    | .constDecl name value => eval_const_decl fuel name value env s
    | .fnDecl name params body => eval_fn_decl name params body env s
    | .returnStmt value => eval_return_stmt fuel value env s
    | .exprStmt e => eval fuel e env s
    | .importStmt => .ok .nil s
    | .capabilityRequest => .ok .nil s
termination_by structural fuel _ _ _ => fuel

/-- The `result = None; for stmt in ...: result = await self.eval(stmt, ...)`
loop shared by `eval_module`, function/strand bodies, and every block of
`if`/`match`/`for`/`while`/`attempt`: evaluates statements in order and
yields the last statement's value (`acc` is the current `result`). -/
def eval_block : Nat → List Stmt → Value → Nat → St → Eres Value
  | 0, _, _, _, _ => .timeout
  | _+1, [], acc, _, s => .ok acc s
  | fuel+1, st :: rest, _, env, s =>
    match eval_stmt fuel st env s with
    | .ok r s1 => eval_block fuel rest r env s1
    | .exn e s1 => .exn e s1
    | .timeout => .timeout
termination_by structural fuel _ _ _ _ => fuel

/-- `eval_let_decl`: evaluate, then define immutably; the statement itself
evaluates to `None`. -/
def eval_let_decl : Nat → String → Expr → Nat → St → Eres Value
  | 0, _, _, _, _ => .timeout
  | fuel+1, name, value, env, s =>
    match eval fuel value env s with
    | .ok v s1 =>
      match define s1.frames env name v false with
      | .ok fr => .ok .nil { s1 with frames := fr }
      | .error e => .exn e s1
    | .exn e s1 => .exn e s1
    | .timeout => .timeout
termination_by structural fuel _ _ _ _ => fuel

/-- `eval_var_decl`: evaluate, then define mutably. -/
def eval_var_decl : Nat → String → Expr → Nat → St → Eres Value
  | 0, _, _, _, _ => .timeout
  | fuel+1, name, value, env, s =>
    match eval fuel value env s with
    | .ok v s1 =>
      match define s1.frames env name v true with
      | .ok fr => .ok .nil { s1 with frames := fr }
      | .error e => .exn e s1
    | .exn e s1 => .exn e s1
    | .timeout => .timeout
termination_by structural fuel _ _ _ _ => fuel

/-- `eval_const_decl`: evaluate, then define immutably. -/
def eval_const_decl : Nat → String → Expr → Nat → St → Eres Value
  | 0, _, _, _, _ => .timeout
  | fuel+1, name, value, env, s =>
    match eval fuel value env s with
    | .ok v s1 =>
      match define s1.frames env name v false with
      | .ok fr => .ok .nil { s1 with frames := fr }
      | .error e => .exn e s1
    | .exn e s1 => .exn e s1
    | .timeout => .timeout
termination_by structural fuel _ _ _ _ => fuel

/-- `eval_return_stmt`: evaluate the operand (or `None`) and raise the
control-flow exception `ReturnValue`. -/
def eval_return_stmt : Nat → Option Expr → Nat → St → Eres Value
  | 0, _, _, _ => .timeout
  | _+1, none, _, s => .exn (.exnReturn .nil) s
  | fuel+1, some e, env, s =>
    match eval fuel e env s with
    | .ok v s1 => .exn (.exnReturn v) s1
    | .exn e1 s1 => .exn e1 s1
    | .timeout => .timeout
termination_by structural fuel _ _ _ => fuel

/-- `eval_binary_expr`: **both** operands are evaluated before the operator
switch (there is no short-circuit in the source); `AND`/`OR` then return
`left and right` / `left or right` on the computed values, and the
pipelines call through `call_function`. -/
def eval_binary_expr : Nat → Expr → BinaryOp → Expr → Nat → St → Eres Value
  | 0, _, _, _, _, _ => .timeout
  | fuel+1, left, op, right, env, s =>
    match eval fuel left env s with
    | .ok l s1 =>
      match eval fuel right env s1 with
      | .ok r s2 =>
        match op with
        | .and => .ok (if truthy l then r else l) s2
        | .or => .ok (if truthy l then l else r) s2
        | .pipelineForward =>
          if is_callable r then call_function fuel r [l] s2
          else .exn (.exnError "Right side of |> must be callable") s2
        | .pipelineBackward =>
          if is_callable l then call_function fuel l [r] s2
          else .exn (.exnError "Left side of <| must be callable") s2
        | op =>
          match apply_binop op l r with
          | .ok v => .ok v s2
          | .error e => .exn e s2
      | .exn e s2 => .exn e s2
      | .timeout => .timeout
    | .exn e s1 => .exn e s1
    | .timeout => .timeout
termination_by structural fuel _ _ _ _ _ => fuel

/-- `eval_unary_expr`. -/
def eval_unary_expr : Nat → UnaryOp → Expr → Nat → St → Eres Value
  | 0, _, _, _, _ => .timeout
  | fuel+1, op, e, env, s =>
    match eval fuel e env s with
    | .ok v s1 =>
      match op with
      | .neg =>
        match py_neg v with
        | .ok r => .ok r s1
        | .error err => .exn err s1
      | .not => .ok (.bool (!truthy v)) s1
      | .pos =>
        match py_pos v with
        | .ok r => .ok r s1
        | .error err => .exn err s1
    | .exn err s1 => .exn err s1
    | .timeout => .timeout
termination_by structural fuel _ _ _ _ => fuel

/-- `eval_assignment`: evaluate the right-hand side, `Environment.set`, and
return the assigned value. -/
def eval_assignment : Nat → String → Expr → Nat → St → Eres Value
  | 0, _, _, _, _ => .timeout
  | fuel+1, name, value, env, s =>
    match eval fuel value env s with
    | .ok v s1 =>
      match set s1.frames.length s1.frames env name v with
      | .ok fr => .ok v { s1 with frames := fr }
      | .error e => .exn e s1
    | .exn e s1 => .exn e s1
    | .timeout => .timeout
termination_by structural fuel _ _ _ _ => fuel

/-- `eval_call`: evaluate the callee, then the arguments left to right, then
call. -/
def eval_call : Nat → Expr → List Expr → Nat → St → Eres Value
  | 0, _, _, _, _ => .timeout
  | fuel+1, func, args, env, s =>
    match eval fuel func env s with
    | .ok f s1 =>
      match eval_args fuel args env s1 with
      | .ok vs s2 => call_function fuel f vs s2
      | .exn e s2 => .exn e s2
      | .timeout => .timeout
    | .exn e s1 => .exn e s1
    | .timeout => .timeout
termination_by structural fuel _ _ _ _ => fuel

/-- Argument-list evaluation (the comprehension in `eval_call`, also used
for list literals). -/
def eval_args : Nat → List Expr → Nat → St → Eres (List Value)
  | 0, _, _, _ => .timeout
  | _+1, [], _, s => .ok [] s
  | fuel+1, e :: rest, env, s =>
    match eval fuel e env s with
    | .ok v s1 =>
      match eval_args fuel rest env s1 with
      | .ok vs s2 => .ok (v :: vs) s2
      | .exn err s2 => .exn err s2
      | .timeout => .timeout
    | .exn err s1 => .exn err s1
    | .timeout => .timeout
termination_by structural fuel _ _ _ => fuel

/-- `call_function` on a `FloFunction`: fresh frame rooted at the closure
(declaration-time) environment, exact-arity check, parameters bound
immutably, then the body; a `ReturnValue` raised in the body is caught here
and its payload becomes the call's value.  Calling a non-function raises.
(The `callable(func)` branch for host builtins is outside the model.) -/
def call_function : Nat → Value → List Value → St → Eres Value
  | 0, _, _, _ => .timeout
  | fuel+1, func, args, s =>
    match func with
    | .closure name params body closure_env =>
      let fid := s.frames.length
      let s1 : St := { s with frames := s.frames ++ [⟨some closure_env, [], []⟩] }
      let np := params.length
      let na := args.length
      if na ≠ np then .exn (.exnError (arity_msg name np na)) s1
      else
        match bind_params s1.frames fid params args with
        | .error e => .exn e s1
        | .ok fr =>
          match eval_block fuel body .nil fid { s1 with frames := fr } with
          | .ok v s2 => .ok v s2
          | .exn (.exnReturn v) s2 => .ok v s2
          | .exn e s2 => .exn e s2
          | .timeout => .timeout
    | _ => .exn (.exnError s!"Not a function: {repr_v func}") s
termination_by structural fuel _ _ _ => fuel

/-- `eval_list_expr`. -/
def eval_list_expr : Nat → List Expr → Nat → St → Eres Value
  | 0, _, _, _ => .timeout
  | fuel+1, elems, env, s =>
    match eval_args fuel elems env s with
    | .ok vs s1 => .ok (.list vs) s1
    | .exn e s1 => .exn e s1
    | .timeout => .timeout
termination_by structural fuel _ _ _ => fuel

/-- `eval_map_expr`: entries evaluated in order into a dict (`acc`), a later
entry for the same key overwriting the earlier one. -/
def eval_map_expr : Nat → List (String × Expr) → List (String × Value) →
    Nat → St → Eres Value
  | 0, _, _, _, _ => .timeout
  | _+1, [], acc, _, s => .ok (.map acc) s
  | fuel+1, (k, ve) :: rest, acc, env, s =>
    match eval fuel ve env s with
    | .ok v s1 => eval_map_expr fuel rest (upd_assoc k v acc) env s1
    | .exn e s1 => .exn e s1
    | .timeout => .timeout
termination_by structural fuel _ _ _ _ => fuel

/-- `eval_index`. -/
def eval_index : Nat → Expr → Expr → Nat → St → Eres Value
  | 0, _, _, _, _ => .timeout
  | fuel+1, e, i, env, s =>
    match eval fuel e env s with
    | .ok obj s1 =>
      match eval fuel i env s1 with
      | .ok idx s2 =>
        match py_index obj idx with
        | .ok v => .ok v s2
        | .error err => .exn err s2
      | .exn err s2 => .exn err s2
      | .timeout => .timeout
    | .exn err s1 => .exn err s1
    | .timeout => .timeout
termination_by structural fuel _ _ _ _ => fuel

/-- `eval_attr`. -/
def eval_attr : Nat → Expr → String → Nat → St → Eres Value
  | 0, _, _, _, _ => .timeout
  | fuel+1, e, name, env, s =>
    match eval fuel e env s with
    | .ok obj s1 =>
      match py_attr obj name with
      | .ok v => .ok v s1
      | .error err => .exn err s1
    | .exn err s1 => .exn err s1
    | .timeout => .timeout
termination_by structural fuel _ _ _ _ => fuel

/-- `eval_if_expr`: the condition is truth-tested with the host `if`; the
taken block's last statement is the result, `None` when no branch is
taken. -/
def eval_if_expr : Nat → Expr → List Stmt → List (Expr × List Stmt) →
    Option (List Stmt) → Nat → St → Eres Value
  | 0, _, _, _, _, _, _ => .timeout
  | fuel+1, cond, thenBlock, elifs, elseBlock, env, s =>
    match eval fuel cond env s with
    | .ok c s1 =>
      if truthy c then eval_block fuel thenBlock .nil env s1
      else eval_elif_clauses fuel elifs elseBlock env s1
    | .exn e s1 => .exn e s1
    | .timeout => .timeout
termination_by structural fuel _ _ _ _ _ _ => fuel

/-- The `elif` scan of `eval_if_expr`, ending in the `else` block (or
`None`). -/
def eval_elif_clauses : Nat → List (Expr × List Stmt) → Option (List Stmt) →
    Nat → St → Eres Value
  | 0, _, _, _, _ => .timeout
  | _+1, [], none, _, s => .ok .nil s
  | fuel+1, [], some els, env, s => eval_block fuel els .nil env s
  | fuel+1, (c, blk) :: rest, elseBlock, env, s =>
    match eval fuel c env s with
    | .ok v s1 =>
      if truthy v then eval_block fuel blk .nil env s1
      else eval_elif_clauses fuel rest elseBlock env s1
    | .exn e s1 => .exn e s1
    | .timeout => .timeout
termination_by structural fuel _ _ _ _ => fuel

/-- `eval_match_expr`: evaluate the scrutinee once, then try the arms. -/
def eval_match_expr : Nat → Expr → List (Pattern × Expr) → Nat → St → Eres Value
  | 0, _, _, _, _ => .timeout
  | fuel+1, e, arms, env, s =>
    match eval fuel e env s with
    | .ok v s1 => eval_match_arms fuel arms v env s1
    | .exn err s1 => .exn err s1
    | .timeout => .timeout
termination_by structural fuel _ _ _ _ => fuel

/-- The arm scan of `eval_match_expr`: first matching arm's expression is
evaluated; no match raises `FloRuntimeError`. -/
def eval_match_arms : Nat → List (Pattern × Expr) → Value → Nat → St → Eres Value
  | 0, _, _, _, _ => .timeout
  | _+1, [], v, _, s => .exn (.exnError s!"No match for value: {repr_v v}") s
  | fuel+1, (pat, armExpr) :: rest, v, env, s =>
    match match_pattern pat v env s with
    | .ok true s1 => eval fuel armExpr env s1
    | .ok false s1 => eval_match_arms fuel rest v env s1
    | .exn e s1 => .exn e s1
    | .timeout => .timeout
termination_by structural fuel _ _ _ _ => fuel

/-- `eval_for_expr`: evaluate the iterable once, then loop. -/
def eval_for_expr : Nat → String → Expr → List Stmt → Nat → St → Eres Value
  | 0, _, _, _, _, _ => .timeout
  | fuel+1, var, iterable, body, env, s =>
    match eval fuel iterable env s with
    | .ok itv s1 =>
      match py_iter itv with
      | .ok items => for_loop fuel var items body .nil env s1
      | .error e => .exn e s1
    | .exn e s1 => .exn e s1
    | .timeout => .timeout
termination_by structural fuel _ _ _ _ _ => fuel

/-- The iteration loop of `eval_for_expr`: a fresh child frame per
iteration, the loop variable bound immutably in it; `result` carries the
last statement's value across iterations. -/
def for_loop : Nat → String → List Value → List Stmt → Value → Nat → St → Eres Value
  | 0, _, _, _, _, _, _ => .timeout
  | _+1, _, [], _, result, _, s => .ok result s
  | fuel+1, var, item :: rest, body, result, env, s =>
    let lid := s.frames.length
    let s1 : St := { s with frames := s.frames ++ [⟨some env, [], []⟩] }
    match define s1.frames lid var item false with
    | .error e => .exn e s1
    | .ok fr =>
      match eval_block fuel body result lid { s1 with frames := fr } with
      | .ok r s2 => for_loop fuel var rest body r env s2
      | .exn e s2 => .exn e s2
      | .timeout => .timeout
termination_by structural fuel _ _ _ _ _ _ => fuel

/-- `eval_while_expr`: `result = None`, then loop. -/
def eval_while_expr : Nat → Expr → List Stmt → Nat → St → Eres Value
  | 0, _, _, _, _ => .timeout
  | fuel+1, cond, body, env, s => while_loop fuel cond body .nil env s
termination_by structural fuel _ _ _ _ => fuel

/-- The `while True:` loop of `eval_while_expr`: re-evaluate the condition,
truth-test it with the host `if`, and run the body in the enclosing scope
(no per-iteration frame). -/
def while_loop : Nat → Expr → List Stmt → Value → Nat → St → Eres Value
  | 0, _, _, _, _, _ => .timeout
  | fuel+1, cond, body, result, env, s =>
    match eval fuel cond env s with
    | .ok c s1 =>
      if !truthy c then .ok result s1
      else
        match eval_block fuel body result env s1 with
        | .ok r s2 => while_loop fuel cond body r env s2
        | .exn e s2 => .exn e s2
        | .timeout => .timeout
    | .exn e s1 => .exn e s1
    | .timeout => .timeout
termination_by structural fuel _ _ _ _ _ => fuel

/-- `eval_attempt_expr`: the `try`/`except`/`finally` of the source.  The
`try`/`except` part is `attempt_try_rescue`; when a `finally` clause is
present it then runs on every exit path, its own result discarded, and an
exception it raises replaces the pending outcome (Python `finally`
semantics). -/
def eval_attempt_expr : Nat → List Stmt → Option (String × List Stmt) →
    Option (List Stmt) → Nat → St → Eres Value
  | 0, _, _, _, _, _ => .timeout
  | fuel+1, body, rescue, finallyClause, env, s =>
    match finallyClause with
    | none => attempt_try_rescue fuel body rescue env s
    | some fblock =>
      match attempt_try_rescue fuel body rescue env s with
      | .ok v s1 =>
        match run_finally fuel fblock env s1 with
        | .ok _ s2 => .ok v s2
        | .exn e2 s2 => .exn e2 s2
        | .timeout => .timeout
      | .exn e s1 =>
        match run_finally fuel fblock env s1 with
        | .ok _ s2 => .exn e s2
        | .exn e2 s2 => .exn e2 s2
        | .timeout => .timeout
      | .timeout => .timeout
termination_by structural fuel _ _ _ _ _ => fuel

/-- The `try`/`except Exception as e` part of `eval_attempt_expr`: any
exception raised by the body — **including the control-flow exception
`ReturnValue`, which subclasses `Exception`** — is caught when a rescue
clause is present; the error object is bound immutably in a fresh child
frame and the rescue block's value becomes the result.  With no rescue
clause the exception re-propagates. -/
def attempt_try_rescue : Nat → List Stmt → Option (String × List Stmt) →
    Nat → St → Eres Value
  | 0, _, _, _, _ => .timeout
  | fuel+1, body, rescue, env, s =>
    match eval_block fuel body .nil env s with
    | .ok v s1 => .ok v s1
    | .exn e s1 =>
      match rescue with
      | some (var, blk) =>
        let rid := s1.frames.length
        let s2 : St := { s1 with frames := s1.frames ++ [⟨some env, [], []⟩] }
        match define s2.frames rid var e false with
        | .error e2 => .exn e2 s2
        | .ok fr => eval_block fuel blk .nil rid { s2 with frames := fr }
      | none => .exn e s1
    | .timeout => .timeout
termination_by structural fuel _ _ _ _ => fuel

/-- The `finally` block runner: statements evaluated in the enclosing scope,
their values discarded (`await self.eval(stmt, env)` with no assignment). -/
def run_finally : Nat → List Stmt → Nat → St → Eres Unit
  | 0, _, _, _ => .timeout
  | _+1, [], _, s => .ok () s
  | fuel+1, st :: rest, env, s =>
    match eval_stmt fuel st env s with
    | .ok _ s1 => run_finally fuel rest env s1
    | .exn e s1 => .exn e s1
    | .timeout => .timeout
termination_by structural fuel _ _ _ => fuel

/-- `eval_strand_expr`, serialised: the strand body runs in a fresh child
frame, a `ReturnValue` raised in it is caught at the strand boundary, and
the outcome (value or exception) is recorded in the strand table; the
handle is returned.  (The source schedules the body as an `asyncio` task;
the sequential model runs it at creation, which no verified statement
distinguishes.) -/
def eval_strand_expr : Nat → List Stmt → Nat → St → Eres Value
  | 0, _, _, _ => .timeout
  | fuel+1, body, env, s =>
    let sid := s.frames.length
    let s1 : St := { s with frames := s.frames ++ [⟨some env, [], []⟩] }
    match eval_block fuel body .nil sid s1 with
    | .ok v s2 =>
      .ok (.strand s2.strands.length) { s2 with strands := s2.strands ++ [.ok v] }
    | .exn (.exnReturn v) s2 =>
      .ok (.strand s2.strands.length) { s2 with strands := s2.strands ++ [.ok v] }
    | .exn e s2 =>
      .ok (.strand s2.strands.length) { s2 with strands := s2.strands ++ [.error e] }
    | .timeout => .timeout
termination_by structural fuel _ _ _ => fuel

/-- `eval_await_expr`: on a `FloStrand` handle, join it (yield its recorded
value or re-raise its recorded exception); on **every other value, return
the value unchanged**.  (The `asyncio.iscoroutine`/`isfuture` branch
concerns host objects that are not run-time values of the language.) -/
def eval_await_expr : Nat → Expr → Nat → St → Eres Value
  | 0, _, _, _ => .timeout
  | fuel+1, e, env, s =>
    match eval fuel e env s with
    | .ok (.strand id) s1 =>
      match s1.strands[id]? with
      | some (.ok v) => .ok v s1
      | some (.error err) => .exn err s1
      | none => .exn (.exnError "unknown strand") s1
    | .ok v s1 => .ok v s1
    | .exn err s1 => .exn err s1
    | .timeout => .timeout
termination_by structural fuel _ _ _ => fuel

/-- `eval_option_expr`: `None` evaluates to `None`; `Some(e)` evaluates to
the **payload itself** — no wrapper tag is attached.  (A `Some` node with a
missing operand would make the source dispatch on the Python value `None`
and raise "Unknown node type"; any other variant falls through to the
implicit `None` return.) -/
def eval_option_expr : Nat → String → Option Expr → Nat → St → Eres Value
  | 0, _, _, _, _ => .timeout
  | fuel+1, variant, value, env, s =>
    if variant = "None" then .ok .nil s
    else if variant = "Some" then
      match value with
      | some e => eval fuel e env s
      | none => .exn (.exnError "Unknown node type: NoneType") s
    else .ok .nil s
termination_by structural fuel _ _ _ _ => fuel

/-- `eval_result_expr`: `Ok(e)` / `Err(e)` evaluate to the Python tuples
`("Ok", v)` / `("Err", v)`. -/
def eval_result_expr : Nat → String → Expr → Nat → St → Eres Value
  | 0, _, _, _, _ => .timeout
  | fuel+1, variant, value, env, s =>
    match eval fuel value env s with
    | .ok v s1 =>
      if variant = "Ok" then .ok (.tuple [.str "Ok", v]) s1
      else if variant = "Err" then .ok (.tuple [.str "Err", v]) s1
      else .ok .nil s1
    | .exn e s1 => .exn e s1
    | .timeout => .timeout
termination_by structural fuel _ _ _ _ => fuel

end

/-- `eval_module`: statements in order, value of the last one. -/
def eval_module (fuel : Nat) (statements : List Stmt) (env : Nat) (s : St) :
    Eres Value :=
  eval_block fuel statements .nil env s

/-- The top-level `run`: evaluate a module in a fresh interpreter state. -/
def run (fuel : Nat) (statements : List Stmt) : Eres Value :=
  eval_module fuel statements 0 st0

/-- Observable outcome of `run`: the resulting value or uncaught exception,
with the final state dropped; `none` when the fuel ran out. -/
def run_val (fuel : Nat) (statements : List Stmt) : Option (Except Value Value) :=
  match run fuel statements with
  | .ok v _ => some (.ok v)
  | .exn e _ => some (.error e)
  | .timeout => none

/-! ## Verified claims -/

/-- Claim C1, counterexample: an `if` expression whose condition evaluates to
`Int(0)` does **not** take the then-branch — `if 0 do 1 else do 2 end`
evaluates to `2`, the else-branch value, which differs from the then-branch
value `1`.  This refutes "only `Bool(false)` and `Nil` are falsy". -/
theorem c1_counterexample :
    run_val 50 [.exprStmt (.ifExpr (.intLit 0) [.exprStmt (.intLit 1)] []
      (some [.exprStmt (.intLit 2)]))] = some (.ok (.int 2)) ∧
    Value.int 2 ≠ Value.int 1 := by
  refine ⟨rfl, ?_⟩
  simp

/-- Claim C1 as amended: in every condition position (`if`/`elif` conditions,
`while` conditions, and the operand of logical NOT) the evaluator applies the
host (Python) truth test `truthy`, whose falsy values are exactly
`Bool(false)`, `Nil`, `Int(0)`, `Float(0.0)`, the empty `String`, the empty
`List`, the empty `Map` and the empty tuple; every other value is truthy.
Conjuncts: (1) the falsy set of `truthy`; (2) an `if` expression takes the
then-branch exactly when its condition's value is `truthy`; (3) a `while`
loop whose condition's value is falsy stops at once with the accumulated
result; (4) logical NOT returns the negated truth value. -/
theorem c1_condition_truthiness_amended :
    (∀ v, truthy v = false ↔
      (v = .bool false ∨ v = .nil ∨ v = .int 0 ∨ v = .float 0 ∨ v = .str "" ∨
       v = .list [] ∨ v = .map [] ∨ v = .tuple [])) ∧
    (∀ fuel c thn elifs els env s v s1, eval fuel c env s = .ok v s1 →
      eval_if_expr (fuel+1) c thn elifs els env s =
        if truthy v then eval_block fuel thn .nil env s1
        else eval_elif_clauses fuel elifs els env s1) ∧
    (∀ fuel c body result env s v s1, eval fuel c env s = .ok v s1 →
      truthy v = false → while_loop (fuel+1) c body result env s = .ok result s1) ∧
    (∀ fuel e env s v s1, eval fuel e env s = .ok v s1 →
      eval_unary_expr (fuel+1) .not e env s = .ok (.bool (!truthy v)) s1) := by
  refine ⟨?_, ?_, ?_, ?_⟩
  · intro v
    cases v <;> simp [truthy, bne_eq_false_iff_eq, List.isEmpty_iff]
  · intro fuel c thn elifs els env s v s1 h
    simp [eval_if_expr, h]
  · intro fuel c body result env s v s1 h ht
    simp [while_loop, h, ht]
  · intro fuel e env s v s1 h
    simp [eval_unary_expr, h]

/-- Witness for the amended claim C1: conjunct (2) applied to the concrete
condition `0` in the initial state — the else path is taken. -/
theorem c1_condition_truthiness_amended_witness :
    eval_if_expr 2 (.intLit 0) [.exprStmt (.intLit 1)] []
      (some [.exprStmt (.intLit 2)]) 0 st0 =
    if truthy (.int 0) then eval_block 1 [.exprStmt (.intLit 1)] .nil 0 st0
    else eval_elif_clauses 1 [] (some [.exprStmt (.intLit 2)]) 0 st0 :=
  c1_condition_truthiness_amended.2.1 1 (.intLit 0) [.exprStmt (.intLit 1)] []
    (some [.exprStmt (.intLit 2)]) 0 st0 (.int 0) st0 rfl

/-- Claim C2, counterexample: `false && boom` with `boom` an undefined
variable raises `UndefinedVariable` instead of succeeding — the right
operand of `&&` **is** evaluated even though the left operand is falsy. -/
theorem c2_counterexample :
    run_val 50 [.exprStmt (.binary (.boolLit false) .and (.varRef "boom"))] =
      some (.error (.exnError (undefined_msg "boom"))) ∧
    ∀ v, run_val 50 [.exprStmt (.binary (.boolLit false) .and (.varRef "boom"))] ≠
      some (.ok v) := by
  refine ⟨rfl, ?_⟩
  intro v h
  rw [show run_val 50 [.exprStmt (.binary (.boolLit false) .and (.varRef "boom"))] =
      some (.error (.exnError (undefined_msg "boom"))) from rfl] at h
  simp at h

/-- Claim C2 as amended: `eval_binary_expr` always evaluates both operands;
once the left operand has evaluated to `v`, the whole `AND` (resp. `OR`)
expression behaves exactly like the evaluation of the right operand, with a
success value `w` replaced by `left and right` = (if `v` truthy then `w`
else `v`) (resp. `left or right`), and any exception from the right operand
propagating even when `v` alone determines the boolean outcome. -/
theorem c2_and_or_both_operands_amended :
    ∀ fuel l r env s v s1, eval fuel l env s = .ok v s1 →
      (eval_binary_expr (fuel+1) l .and r env s =
        match eval fuel r env s1 with
        | .ok w s2 => .ok (if truthy v then w else v) s2
        | .exn e s2 => .exn e s2
        | .timeout => .timeout) ∧
      (eval_binary_expr (fuel+1) l .or r env s =
        match eval fuel r env s1 with
        | .ok w s2 => .ok (if truthy v then v else w) s2
        | .exn e s2 => .exn e s2
        | .timeout => .timeout) := by
  intro fuel l r env s v s1 h
  constructor <;> simp only [eval_binary_expr, h]

/-- Witness for the amended claim C2: left operand `false`, right operand an
undefined variable — the `AND` expression reduces to the right operand's
evaluation (which raises). -/
theorem c2_and_or_both_operands_amended_witness :
    eval_binary_expr 2 (.boolLit false) .and (.varRef "boom") 0 st0 =
      match eval 1 (.varRef "boom") 0 st0 with
      | .ok w s2 => .ok (if truthy (.bool false) then w else (.bool false)) s2
      | .exn e s2 => .exn e s2
      | .timeout => .timeout :=
  (c2_and_or_both_operands_amended 1 (.boolLit false) (.varRef "boom") 0 st0
    (.bool false) st0 rfl).1

/-- Claim C3 (a code bug): a `return` inside an `attempt` body that has a
`rescue` clause is **intercepted** by the rescue — `except Exception as e`
catches the control-flow exception `ReturnValue`, so
`fn f() do attempt do return 1 rescue e do 2 end end; f()` evaluates to `2`
instead of `1`; the same function without the rescue clause returns `1` as
the claim (and the spec) require. -/
theorem c3_return_intercepted_by_rescue :
    run_val 60 [
      .fnDecl "f" [] [.exprStmt (.attemptExpr [.returnStmt (some (.intLit 1))]
        (some ("e", [.exprStmt (.intLit 2)])) none)],
      .exprStmt (.call (.varRef "f") [])] = some (.ok (.int 2)) ∧
    run_val 60 [
      .fnDecl "g" [] [.exprStmt (.attemptExpr [.returnStmt (some (.intLit 1))]
        none none)],
      .exprStmt (.call (.varRef "g") [])] = some (.ok (.int 1)) := ⟨rfl, rfl⟩

/-- Claim C4, counterexample: an `Err` pattern matches an `Ok` value, and an
`Ok` pattern matches the non-Result value `Int(7)` — `match_pattern` never
inspects the scrutinee for a `ResultPattern`. -/
theorem c4_counterexample :
    match_pattern (.result "Err" none) (.tuple [.str "Ok", .int 1]) 0 st0 =
      .ok true st0 ∧
    match_pattern (.result "Ok" none) (.int 7) 0 st0 = .ok true st0 := ⟨rfl, rfl⟩

/-- Claim C4 as amended: a match arm with a Result pattern matches **every**
scrutinee value unconditionally, whatever the pattern's variant and whatever
the value (the source's `ResultPattern` branch returns `True` with the
comment "Simple implementation - can be enhanced"). -/
theorem c4_result_pattern_amended :
    ∀ variant inner v env s,
      match_pattern (.result variant inner) v env s = .ok true s := by
  intro variant inner v env s
  rfl

/-- Claim C5, counterexample: the fixed-arity list pattern `[1]` does not
match the list value `[1]` (same length, equal element) — `match_pattern`
has no `ListPattern` branch, so in a full `match` the wildcard arm is taken
instead. -/
theorem c5_counterexample :
    match_pattern (.list [.literal (.int 1)]) (.list [.int 1]) 0 st0 =
      .ok false st0 ∧
    run_val 60 [.exprStmt (.matchExpr (.listExpr [.intLit 1])
      [(.list [.literal (.int 1)], .intLit 7), (.wildcard, .intLit 8)])] =
      some (.ok (.int 8)) := ⟨rfl, rfl⟩

/-- Claim C5 as amended: a list pattern never matches any scrutinee — it
falls through to the matcher's final `else: return False`. -/
theorem c5_list_pattern_amended :
    ∀ ps v env s, match_pattern (.list ps) v env s = .ok false s := by
  intro ps v env s
  rfl

/-- Claim C9: `await` is the identity on every value that is not a
`StrandHandle` — if the operand evaluates to such a `v`, the whole await
expression evaluates to `v` with the same final state. -/
theorem c9_await_identity_on_non_handles :
    ∀ fuel e env s v s1, eval fuel e env s = .ok v s1 →
      (∀ id, v ≠ .strand id) →
      eval (fuel+2) (.awaitExpr e) env s = .ok v s1 := by
  intro fuel e env s v s1 h hns
  show eval_await_expr (fuel+1) e env s = .ok v s1
  rw [eval_await_expr, h]
  cases v with
  | strand id => exact absurd rfl (hns id)
  | int n => rfl
  | float q => rfl
  | str t => rfl
  | bool b => rfl
  | nil => rfl
  | list xs => rfl
  | map xs => rfl
  | tuple xs => rfl
  | closure a b c d => rfl
  | exnReturn w => rfl
  | exnError m => rfl

/-- Witness for claim C9: awaiting the literal `5`. -/
theorem c9_await_identity_on_non_handles_witness :
    eval 3 (.awaitExpr (.intLit 5)) 0 st0 = .ok (.int 5) st0 :=
  c9_await_identity_on_non_handles 1 (.intLit 5) 0 st0 (.int 5) st0 rfl
    (fun id h => by cases h)

/-- Claim C10: the `Some(e)` constructor evaluates to the payload itself (no
wrapper tag) and `None` evaluates to `Nil`; hence `Some(nil)` evaluates to
`Nil` and is indistinguishable from `None`: in a match, a `None` pattern
matches exactly the value `Nil` and a `Some` pattern matches exactly the
values other than `Nil`.  Conjuncts: (1) `Some(e)` is the evaluation of `e`;
(2) `None` is `Nil`; (3) `Some(nil)` evaluates to `Nil`; (4) a `None`
pattern tests `is None`; (5) a `Some` pattern tests `is not None`;
(6) `is_nil` holds exactly at `Nil`. -/
theorem c10_option_untagged :
    (∀ fuel e env s, eval_option_expr (fuel+1) "Some" (some e) env s =
      eval fuel e env s) ∧
    (∀ fuel env s (v : Option Expr), eval_option_expr (fuel+1) "None" v env s =
      .ok .nil s) ∧
    (∀ env s, eval 3 (.optionExpr "Some" (some .nilLit)) env s = .ok .nil s) ∧
    (∀ inner v env s, match_pattern (.option "None" inner) v env s =
      .ok (is_nil v) s) ∧
    (∀ inner v env s, match_pattern (.option "Some" inner) v env s =
      .ok (!is_nil v) s) ∧
    (∀ v, is_nil v = true ↔ v = .nil) := by
  refine ⟨?_, ?_, ?_, ?_, ?_, ?_⟩
  · intro fuel e env s
    rfl
  · intro fuel env s v
    rfl
  · intro env s
    rfl
  · intro inner v env s
    rfl
  · intro inner v env s
    rfl
  · intro v
    cases v <;> simp [is_nil]

/-- Claim C6: with a `finally` clause present, the finally block runs exactly
once on every exit path of the attempt — whatever outcome the
`try`/`except` part (`attempt_try_rescue`: normal completion, rescued error
— including an intercepted `ReturnValue` — or re-propagating error /
non-local return) produced from state `s`, the attempt's final state is the
state reached by running the finally block exactly once from that outcome's
state; the finally block's own result is discarded — a value outcome `v` is
kept and a pending exception `e` keeps propagating — except that an
exception `e2` raised by the finally block itself supersedes and replaces
the pending outcome.  Conjuncts: (1) value outcome, finally succeeds;
(2) pending exception, finally succeeds (never swallowed); (3) value
outcome, finally raises (supersedes); (4) pending exception, finally raises
(replaces). -/
theorem c6_finally_exactly_once :
    ∀ fuel body rsc fin env s,
      (∀ v s1 s2, attempt_try_rescue fuel body rsc env s = .ok v s1 →
        run_finally fuel fin env s1 = .ok () s2 →
        eval_attempt_expr (fuel+1) body rsc (some fin) env s = .ok v s2) ∧
      (∀ e s1 s2, attempt_try_rescue fuel body rsc env s = .exn e s1 →
        run_finally fuel fin env s1 = .ok () s2 →
        eval_attempt_expr (fuel+1) body rsc (some fin) env s = .exn e s2) ∧
      (∀ v s1 e2 s2, attempt_try_rescue fuel body rsc env s = .ok v s1 →
        run_finally fuel fin env s1 = .exn e2 s2 →
        eval_attempt_expr (fuel+1) body rsc (some fin) env s = .exn e2 s2) ∧
      (∀ e s1 e2 s2, attempt_try_rescue fuel body rsc env s = .exn e s1 →
        run_finally fuel fin env s1 = .exn e2 s2 →
        eval_attempt_expr (fuel+1) body rsc (some fin) env s = .exn e2 s2) := by
  intro fuel body rsc fin env s
  refine ⟨?_, ?_, ?_, ?_⟩
  · intro v s1 s2 h1 h2
    simp [eval_attempt_expr, h1, h2]
  · intro e s1 s2 h1 h2
    simp [eval_attempt_expr, h1, h2]
  · intro v s1 e2 s2 h1 h2
    simp [eval_attempt_expr, h1, h2]
  · intro e s1 e2 s2 h1 h2
    simp [eval_attempt_expr, h1, h2]

/-- Witness for claim C6: a concrete attempt whose body succeeds with `7`
and whose finally block evaluates `8` and discards it. -/
theorem c6_finally_exactly_once_witness :
    eval_attempt_expr 11 [.exprStmt (.intLit 7)] none (some [.exprStmt (.intLit 8)])
      0 st0 = .ok (.int 7) st0 :=
  (c6_finally_exactly_once 10 [.exprStmt (.intLit 7)] none [.exprStmt (.intLit 8)]
    0 st0).1 (.int 7) st0 st0 rfl rfl

/-- Claim C7: `define` consults only the frame it is called on.  Conjuncts:
(1) on any store, defining `name` in frame `env` raises `DuplicateDefinition`
exactly when `name` is already in that frame's own bindings (the parent
chain is irrelevant: the iff condition mentions only the frame itself);
(2) defining in a freshly created child frame always succeeds — whatever any
ancestor binds (shadowing always succeeds); (3) after a successful define of
`name` in frame `env`, a second define of `name` in the same frame always
raises `DuplicateDefinition`. -/
theorem c7_define_this_scope_only :
    (∀ frames env f name value m, frames[env]? = some f →
      (define frames env name value m = .error (.exnError (dup_def_msg name)) ↔
        (lookup_assoc name f.bindings).isSome)) ∧
    (∀ frames name value m (parent : Nat),
      define (frames ++ [⟨some parent, [], []⟩]) frames.length name value m =
        .ok ((frames ++ [⟨some parent, [], []⟩]).set frames.length
          ⟨some parent, [(name, value)], [(name, m)]⟩)) ∧
    (∀ frames env name value m fr, define frames env name value m = .ok fr →
      ∀ v2 m2, define fr env name v2 m2 = .error (.exnError (dup_def_msg name))) := by
  refine ⟨?_, ?_, ?_⟩
  · intro frames env f name value m hf
    cases hlk : lookup_assoc name f.bindings with
    | some v => simp [define, hf, hlk]
    | none => simp [define, hf, hlk]
  · intro frames name value m parent
    simp [define, List.getElem?_concat_length, lookup_assoc, upd_assoc]
  · intro frames env name value m fr hdef v2 m2
    cases hf : frames[env]? with
    | none => simp [define, hf] at hdef
    | some f =>
      cases hlk : lookup_assoc name f.bindings with
      | some v => simp [define, hf, hlk] at hdef
      | none =>
        simp [define, hf, hlk] at hdef
        have hlt : env < frames.length := by
          rcases List.getElem?_eq_some.mp hf with ⟨h, _⟩
          exact h
        rw [← hdef]
        rw [define, List.getElem?_set_eq_of_lt _ hlt]
        simp [lookup_upd_assoc]

/-- Witness for claim C7: conjunct (1) applied to a concrete one-frame store
that already binds `x`. -/
theorem c7_define_this_scope_only_witness :
    define [⟨none, [("x", Value.int 1)], [("x", false)]⟩] 0 "x" (.int 2) false =
      .error (.exnError (dup_def_msg "x")) ↔
    (lookup_assoc "x" [("x", Value.int 1)]).isSome :=
  c7_define_this_scope_only.1 [⟨none, [("x", .int 1)], [("x", false)]⟩] 0
    ⟨none, [("x", .int 1)], [("x", false)]⟩ "x" (.int 2) false rfl

/-- Whatever frame `owner` designates owns the name. -/
theorem owner_owns (fuel : Nat) (frames : List Frame) (name : String) :
    ∀ env fid, owner fuel frames env name = some fid →
      ∃ f, frames[fid]? = some f ∧ (lookup_assoc name f.bindings).isSome := by
  induction fuel with
  | zero =>
    intro env fid h
    simp [owner] at h
  | succ k ih =>
    intro env fid h
    cases hf : frames[env]? with
    | none => simp [owner, hf] at h
    | some f =>
      cases hlk : lookup_assoc name f.bindings with
      | some v =>
        simp [owner, hf, hlk] at h
        subst h
        exact ⟨f, hf, by simp [hlk]⟩
      | none =>
        cases hp : f.parent with
        | none => simp [owner, hf, hlk, hp] at h
        | some p =>
          simp only [owner, hf, hlk, hp, Option.isSome_none, Bool.false_eq_true,
            if_false] at h
          exact ih p fid h

/-- Claim C8: `set` updates the binding in the nearest scope, walking from
the current frame toward the root, that owns the name (`owner` formalises
"nearest scope owning `name`" from the spec).  If no scope in the chain owns
the name, `set` raises `UndefinedVariable`; if the nearest owning binding
was declared immutable, `set` raises `ImmutableReassignment`; otherwise
`set` succeeds, rewriting exactly that owner frame, and a subsequent `get`
of the name from the same scope returns the new value. -/
theorem c8_set_nearest_scope :
    ∀ fuel frames env name value,
      (owner fuel frames env name = none →
        set fuel frames env name value = .error (.exnError (undefined_msg name))) ∧
      (∀ fid f, owner fuel frames env name = some fid → frames[fid]? = some f →
        (lookup_assoc name f.mutable = some true →
          set fuel frames env name value =
            .ok (frames.set fid { f with bindings := upd_assoc name value f.bindings }) ∧
          get fuel (frames.set fid { f with bindings := upd_assoc name value f.bindings })
            env name = .ok value) ∧
        (lookup_assoc name f.mutable ≠ some true →
          set fuel frames env name value = .error (.exnError (immutable_msg name)))) := by
  intro fuel
  induction fuel with
  | zero =>
    intro frames env name value
    refine ⟨fun _ => rfl, fun fid f h => ?_⟩
    simp [owner] at h
  | succ k ih =>
    intro frames env name value
    constructor
    · intro hnone
      cases hf : frames[env]? with
      | none => simp [set, hf]
      | some f =>
        cases hlk : lookup_assoc name f.bindings with
        | some v => simp [owner, hf, hlk] at hnone
        | none =>
          cases hp : f.parent with
          | none => simp [set, hf, hlk, hp]
          | some p =>
            simp only [owner, hf, hlk, hp, Option.isSome_none, Bool.false_eq_true,
              if_false] at hnone
            have hrec := (ih frames p name value).1 hnone
            simp [set, hf, hlk, hp, hrec]
    · intro fid f hown hfid
      cases hf : frames[env]? with
      | none => simp [owner, hf] at hown
      | some f0 =>
        cases hlk : lookup_assoc name f0.bindings with
        | some v =>
          simp [owner, hf, hlk] at hown
          subst hown
          have hff : f0 = f := by
            rw [hf] at hfid
            exact Option.some.inj hfid
          subst hff
          have hlt : env < frames.length := by
            rcases List.getElem?_eq_some.mp hf with ⟨h, _⟩
            exact h
          constructor
          · intro hm
            constructor
            · simp [set, hf, hlk, hm]
            · rw [get, List.getElem?_set_eq_of_lt _ hlt]
              simp [lookup_upd_assoc]
          · intro hm
            simp [set, hf, hlk, hm]
        | none =>
          cases hp : f0.parent with
          | none => simp [owner, hf, hlk, hp] at hown
          | some p =>
            simp only [owner, hf, hlk, hp, Option.isSome_none, Bool.false_eq_true,
              if_false] at hown
            have hrec := (ih frames p name value).2 fid f hown hfid
            rcases owner_owns k frames name p fid hown with ⟨f2, hf2, hb2⟩
            have hf2f : f2 = f := by
              rw [hfid] at hf2
              exact (Option.some.inj hf2).symm
            rw [hf2f] at hb2
            have hneq : fid ≠ env := by
              intro hEq
              subst hEq
              rw [hf] at hfid
              have hforig : f = f0 := (Option.some.inj hfid).symm
              subst hforig
              rw [hlk] at hb2
              simp at hb2
            constructor
            · intro hm
              obtain ⟨hset, hget⟩ := hrec.1 hm
              constructor
              · simp [set, hf, hlk, hp]
                exact hset
              · rw [get, List.getElem?_set_ne hneq, hf]
                simp [hlk, hp]
                exact hget
            · intro hm
              simp [set, hf, hlk, hp]
              exact hrec.2 hm

/-- Witness for claim C8: a two-frame chain whose root owns the mutable
binding `x`; `set` from the child updates the root frame and a `get` from
the child then sees the new value. -/
theorem c8_set_nearest_scope_witness :
    set 2 [⟨none, [("x", Value.int 1)], [("x", true)]⟩, ⟨some 0, [], []⟩] 1 "x"
        (.int 5) =
      .ok ([⟨none, [("x", Value.int 1)], [("x", true)]⟩,
            ⟨some 0, [], []⟩].set 0
        ⟨none, upd_assoc "x" (Value.int 5) [("x", Value.int 1)], [("x", true)]⟩) ∧
    get 2 ([⟨none, [("x", Value.int 1)], [("x", true)]⟩,
            ⟨some 0, [], []⟩].set 0
        ⟨none, upd_assoc "x" (Value.int 5) [("x", Value.int 1)], [("x", true)]⟩)
      1 "x" = .ok (.int 5) :=
  ((c8_set_nearest_scope 2
      [⟨none, [("x", Value.int 1)], [("x", true)]⟩, ⟨some 0, [], []⟩] 1 "x"
      (.int 5)).2 0 ⟨none, [("x", Value.int 1)], [("x", true)]⟩ rfl rfl).1 rfl
